import Mathlib

/-!
Shallow embedding of the ChatKit panel component and its API route handlers,
together with proofs of the specification claims about them.

The JSON data model is embedded as an inductive type; JavaScript truthiness,
field lookup and string coercion are modelled explicitly.
-/

set_option linter.unusedVariables false
set_option maxRecDepth 100000

/-- JSON/JavaScript values as they flow through the component.  Numbers are
modelled as integers (the code never does arithmetic on them). -/
inductive Json where
  | null : Json
  | bool : Bool → Json
  | num : Int → Json
  | str : String → Json
  | arr : List Json → Json
  | obj : List (String × Json) → Json

/-- JavaScript truthiness of a value (`undefined` is modelled as an absent
`Option` where relevant; `null`, `false`, `0` and `""` are falsy). -/
def Json.truthy : Json → Bool
  | Json.null => false
  | Json.bool b => b
  | Json.num n => decide (n ≠ 0)
  | Json.str s => decide (s ≠ "")
  | Json.arr _ => true
  | Json.obj _ => true

/-- First-match lookup of a key in an object's field list. -/
def lookupField : List (String × Json) → String → Option Json
  | [], _ => none
  | (k, v) :: rest, key => if k = key then some v else lookupField rest key

/-- Property access `value[key]`: defined on objects, `none` (undefined)
elsewhere. -/
def Json.getField? : Json → String → Option Json
  | Json.obj fs, k => lookupField fs k
  | _, _ => none

/-- Property access defaulting to `null` when absent (destructuring a missing
field yields undefined; the code only ever tests such a value for truthiness,
for which `null` is equivalent). -/
def Json.getFieldD (j : Json) (k : String) : Json :=
  (j.getField? k).getD Json.null

/-- Is the value the JSON `null`? -/
def Json.isNull : Json → Bool
  | Json.null => true
  | _ => false

/-- JavaScript `String(v)` coercion for the scalar values the component
interpolates into messages.  Arrays and objects are rendered with placeholder
heads; the component only ever interpolates scalars, so recursive array
flattening is outside the model's scope. -/
def jsToString : Json → String
  | Json.null => "null"
  | Json.bool b => cond b "true" "false"
  | Json.num n => toString n
  | Json.str s => s
  | Json.arr _ => ""
  | Json.obj _ => "[object Object]"

/-! ### Error-detail extraction (`extractErrorDetail` in the panel source)

The source is a cascade of guarded early returns.  Each guard is factored
into a named helper: `strVal` is the `typeof x === "string"` guard,
`errorObjMessage` is the `error && typeof error === "object" && "message" in
error && typeof error.message === "string"` guard, and `detailsErrorDetail`
is the `details && typeof details === "object" && "error" in details` block
(nested `error` string, or nested `error.message` string). -/

/-- Keep an optional value only when it is a JSON string
(the `typeof x === "string"` guard). -/
def strVal : Option Json → Option String
  | some (Json.str s) => some s
  | _ => none

/-- The `error.message` guard of `extractErrorDetail`: a string `message`
field of an object-valued `error`. -/
def errorObjMessage : Option Json → Option String
  | some (Json.obj fs) =>
    match lookupField fs "message" with
    | some (Json.str m) => some m
    | _ => none
  | _ => none

/-- The `details.error` block of `extractErrorDetail`: a string-valued nested
`error`, else a string `message` field of an object-valued nested `error`. -/
def detailsErrorDetail : Option Json → Option String
  | some (Json.obj fs) =>
    match lookupField fs "error" with
    | some (Json.str s) => some s
    | some (Json.obj nfs) =>
      match lookupField nfs "message" with
      | some (Json.str m) => some m
      | _ => none
    | _ => none
  | _ => none

/-- Embedding of `extractErrorDetail(payload, fallback)`: the source's cascade
of early returns, in source order. -/
def extractErrorDetail (payload : Option Json) (fallback : String) : String :=
  match payload with
  | none => fallback
  | some p =>
    match strVal (p.getField? "error") with
    | some s => s
    | none =>
      match errorObjMessage (p.getField? "error") with
      | some m => m
      | none =>
        match strVal (p.getField? "details") with
        | some s => s
        | none =>
          match detailsErrorDetail (p.getField? "details") with
          | some m => m
          | none =>
            match strVal (p.getField? "message") with
            | some s => s
            | none => fallback

/-- Left-biased choice on optional strings (first defined value wins). -/
def optOr : Option String → Option String → Option String
  | some s, _ => some s
  | none, o => o

/-- Modelled from the spec: the deterministic precedence search the spec
describes, written as a first-match chain over the six paths in the spec's
order (top-level `error` string, `error.message`, `details` string,
`details.error`, `details.error.message`, top-level `message`, fallback).
This is the spec-side definition used for comparison with
`extractErrorDetail`. -/
def specErrorPrecedence (p : Json) (fallback : String) : String :=
  (optOr (strVal (p.getField? "error"))
    (optOr (strVal ((p.getField? "error").bind (fun e => e.getField? "message")))
      (optOr (strVal (p.getField? "details"))
        (optOr (strVal ((p.getField? "details").bind (fun d => d.getField? "error")))
          (optOr (strVal (((p.getField? "details").bind (fun d => d.getField? "error")).bind
              (fun e => e.getField? "message")))
            (strVal (p.getField? "message"))))))).getD fallback

theorem optOr_getD (a b : Option String) (fb : String) :
    (optOr a b).getD fb = a.getD (b.getD fb) := by
  cases a <;> rfl

theorem errorObjMessage_eq_spec (o : Option Json) :
    errorObjMessage o = strVal (o.bind (fun e => e.getField? "message")) := by
  rcases o with _ | j
  · rfl
  · cases j <;> rfl

theorem detailsErrorDetail_eq_spec (o : Option Json) :
    detailsErrorDetail o =
      optOr (strVal (o.bind (fun d => d.getField? "error")))
        (strVal ((o.bind (fun d => d.getField? "error")).bind
          (fun e => e.getField? "message"))) := by
  rcases o with _ | j
  · rfl
  · cases j <;> try rfl
    case obj fs =>
      show (match lookupField fs "error" with
            | some (Json.str s) => some s
            | some (Json.obj nfs) =>
              match lookupField nfs "message" with
              | some (Json.str m) => some m
              | _ => none
            | _ => none) =
          optOr (strVal (lookupField fs "error"))
            (strVal ((lookupField fs "error").bind (fun e => e.getField? "message")))
      rcases lookupField fs "error" with _ | n
      · rfl
      · cases n <;> rfl

theorem detailsErrorDetail_getD (o : Option Json) (x : String) :
    (detailsErrorDetail o).getD x =
      (strVal (o.bind (fun d => d.getField? "error"))).getD
        ((strVal ((o.bind (fun d => d.getField? "error")).bind
          (fun e => e.getField? "message"))).getD x) := by
  rw [detailsErrorDetail_eq_spec, optOr_getD]

theorem extractErrorDetail_eq_spec (p : Json) (fb : String) :
    extractErrorDetail (some p) fb = specErrorPrecedence p fb := by
  unfold specErrorPrecedence
  rw [optOr_getD, optOr_getD, optOr_getD, optOr_getD, optOr_getD,
    ← errorObjMessage_eq_spec, ← detailsErrorDetail_getD]
  simp only [extractErrorDetail]
  cases h1 : strVal (p.getField? "error") with
  | some s => rfl
  | none =>
    cases h2 : errorObjMessage (p.getField? "error") with
    | some m => rfl
    | none =>
      cases h3 : strVal (p.getField? "details") with
      | some s => rfl
      | none =>
        cases h4 : detailsErrorDetail (p.getField? "details") with
        | some m => rfl
        | none =>
          cases h5 : strVal (p.getField? "message") with
          | some s => rfl
          | none => rfl

/-- Claim C1: `extractErrorDetail` returns the first match of the fixed
precedence order (top-level `error` string; else `error.message` when it is a
string; else a top-level `details` string; else `details.error` when it is a
string; else `details.error.message` when it is a string; else a top-level
`message` string; else the supplied fallback), stated as agreement with the
spec-side precedence chain on every payload together with the spec's seven
example shapes. -/
theorem c1_error_extraction_precedence :
    (∀ (p : Json) (fb : String), extractErrorDetail (some p) fb = specErrorPrecedence p fb)
    ∧ (∀ fb, extractErrorDetail (some (Json.obj [("error", Json.str "A")])) fb = "A")
    ∧ (∀ fb, extractErrorDetail
        (some (Json.obj [("error", Json.obj [("message", Json.str "B")])])) fb = "B")
    ∧ (∀ fb, extractErrorDetail (some (Json.obj [("details", Json.str "C")])) fb = "C")
    ∧ (∀ fb, extractErrorDetail
        (some (Json.obj [("details", Json.obj [("error", Json.str "D")])])) fb = "D")
    ∧ (∀ fb, extractErrorDetail
        (some (Json.obj [("details",
          Json.obj [("error", Json.obj [("message", Json.str "E")])])])) fb = "E")
    ∧ (∀ fb, extractErrorDetail (some (Json.obj [("message", Json.str "F")])) fb = "F")
    ∧ (∀ fb, extractErrorDetail (some (Json.obj [])) fb = fb) :=
  ⟨extractErrorDetail_eq_spec, fun _ => rfl, fun _ => rfl, fun _ => rfl,
    fun _ => rfl, fun _ => rfl, fun _ => rfl, fun _ => rfl⟩

/-! ### Survey normalization (`skin.survey.submit` branch of `onAction`) -/

/-- `k.replace(/^q4_/, "")`: strip one leading `q4_`. -/
def stripQ4 (k : String) : String :=
  if ("q4_".data).isPrefixOf k.data then String.mk (k.data.drop 3) else k

/-- Embedding of the allergy collection:
`Object.entries(payload).filter(([k, v]) => k.startsWith("q4_") && v)
.map(([k]) => k.replace(/^q4_/, ""))`, then collapsed to exactly `["none"]`
when the collected list contains `"none"`.  The payload is its entry list in
insertion order. -/
def collectAllergies (payload : List (String × Json)) : List String :=
  let allergies :=
    (payload.filter (fun kv => (("q4_".data).isPrefixOf kv.1.data) && kv.2.truthy)).map
      (fun kv => stripQ4 kv.1)
  if allergies.contains "none" then ["none"] else allergies

/-- The `pick` helper of the survey branch: the payload field when the key is
present, `null` otherwise. -/
def pick (payload : List (String × Json)) (k : String) : Json :=
  match lookupField payload k with
  | some v => v
  | none => Json.null

/-- The fixed-shape normalized survey record `{q1..q8}` (q4 is the collected
allergy list). -/
structure Survey where
  q1 : Json
  q2 : Json
  q3 : Json
  q4 : List String
  q5 : Json
  q6 : Json
  q7 : Json
  q8 : Json

/-- Normalization of a `skin.survey.submit` payload into the survey record. -/
def normalizeSurvey (payload : List (String × Json)) : Survey :=
  { q1 := pick payload "q1"
    q2 := pick payload "q2"
    q3 := pick payload "q3"
    q4 := collectAllergies payload
    q5 := pick payload "q5"
    q6 := pick payload "q6"
    q7 := pick payload "q7"
    q8 := pick payload "q8" }

/-- `\w` of the title-casing regex: ASCII letters, digits and underscore. -/
def isWordChar (c : Char) : Bool :=
  c.isAlphanum || c == '_'

/-- `.replace(/\b\w/g, c => c.toUpperCase())`: uppercase every word character
that is preceded by a non-word character or starts the string.  The Boolean
argument records whether the previous character was a word character. -/
def titleCaseChars : Bool → List Char → List Char
  | _, [] => []
  | prevWord, c :: cs =>
    (if isWordChar c && !prevWord then c.toUpper else c) :: titleCaseChars (isWordChar c) cs

/-- The `pretty` helper: on strings, `-`/`_` become spaces and word starts are
upper-cased; on other values, JavaScript string coercion. -/
def pretty : Json → String
  | Json.str s =>
    String.mk (titleCaseChars false
      (s.data.map (fun c => if c == '-' || c == '_' then ' ' else c)))
  | v => jsToString v

/-- JavaScript `join(", ")`. -/
def joinComma : List String → String
  | [] => ""
  | [s] => s
  | s :: rest => s ++ ", " ++ joinComma rest

/-- The `list` helper: comma-joined `pretty`-formatted entries, or the literal
`"None"` when the list is empty. -/
def renderList (arr : List String) : String :=
  if arr.isEmpty then "None" else joinComma (arr.map (fun a => pretty (Json.str a)))

/-- The rendered multi-line survey summary.  The source builds it by string
concatenation in exactly this order; the grouping of the appends is chosen
right-associated (the string value is the same by associativity). -/
def surveySummary (s : Survey) : String :=
  "Survey saved:" ++ "\n" ++
  ("- Skin type: " ++ pretty s.q1 ++ "\n" ++
  ("- Primary concern: " ++ pretty s.q2 ++ "\n" ++
  ("- Allergies: " ++ renderList s.q4 ++ "\n" ++
  ("- Product preference: " ++ pretty s.q5 ++ "\n" ++
  ("- Routine: " ++ pretty s.q6 ++ "\n" ++
  ("- Sensitivity: " ++ pretty s.q7 ++ "\n" ++
  ("- Desired results: " ++ pretty s.q8)))))))

theorem collectAllergies_filterMap (payload : List (String × Json)) :
    (payload.filter (fun kv => (("q4_".data).isPrefixOf kv.1.data) && kv.2.truthy)).map
        (fun kv => stripQ4 kv.1) =
      payload.filterMap (fun kv =>
        if (("q4_".data).isPrefixOf kv.1.data) && kv.2.truthy
        then some (String.mk (kv.1.data.drop 3)) else none) := by
  induction payload with
  | nil => rfl
  | cons kv rest ih =>
    rw [List.filter_cons, List.filterMap_cons]
    by_cases h : ((("q4_".data).isPrefixOf kv.1.data) && kv.2.truthy) = true
    · have hp : ("q4_".data).isPrefixOf kv.1.data = true := (Bool.and_eq_true _ _ ▸ h).1
      have hs : stripQ4 kv.1 = String.mk (kv.1.data.drop 3) := by
        unfold stripQ4
        rw [if_pos hp]
      rw [if_pos h, if_pos h, List.map_cons, ih, hs]
    · rw [if_neg h, if_neg h]
      exact ih

/-- Claim C2: the q4 allergy normalization collects exactly the truthy `q4_*`
flags in payload order with the prefix stripped, collapses to `["none"]` when
`"none"` was collected, yields `[]` when no flag is truthy, and `[]` is
rendered as the literal `"None"`. -/
theorem c2_allergy_normalization :
    (∀ payload : List (String × Json),
      collectAllergies payload =
        (let opts := payload.filterMap (fun kv =>
            if (("q4_".data).isPrefixOf kv.1.data) && kv.2.truthy
            then some (String.mk (kv.1.data.drop 3)) else none)
         if opts.contains "none" then ["none"] else opts))
    ∧ renderList [] = "None"
    ∧ collectAllergies [("q4_nuts", Json.bool true), ("q4_pollen", Json.bool true)] =
        ["nuts", "pollen"]
    ∧ collectAllergies [("q4_none", Json.bool true), ("q4_nuts", Json.bool true)] = ["none"]
    ∧ collectAllergies [("q1", Json.str "dry"), ("q4_nuts", Json.bool false)] = [] := by
  refine ⟨fun payload => ?_, rfl, by decide, by decide, by decide⟩
  show (if ((payload.filter _).map _).contains "none" = true then ["none"]
        else (payload.filter _).map _) = _
  rw [collectAllergies_filterMap]

/-! ### Line structure of the rendered summary -/

/-- Split a character list at newlines (the list of lines; a trailing newline
yields a final empty line, matching the usual split semantics). -/
def splitNl : List Char → List (List Char)
  | [] => [[]]
  | c :: cs =>
    if c = '\n' then [] :: splitNl cs
    else
      match splitNl cs with
      | [] => [[c]]
      | l :: ls => (c :: l) :: ls

/-- The lines of a string. -/
def splitLines (s : String) : List String :=
  (splitNl s.data).map String.mk

theorem stringMk_data (s : String) : String.mk s.data = s := rfl

theorem splitNl_no_newline (l : List Char) (h : ∀ c ∈ l, c ≠ '\n') :
    splitNl l = [l] := by
  induction l with
  | nil => rfl
  | cons c cs ih =>
    have hc : c ≠ '\n' := h c (by simp)
    have ih' := ih (fun x hx => h x (by simp [hx]))
    simp [splitNl, hc, ih']

theorem splitNl_append (l r : List Char) (h : ∀ c ∈ l, c ≠ '\n') :
    splitNl (l ++ '\n' :: r) = l :: splitNl r := by
  induction l with
  | nil => simp [splitNl]
  | cons c cs ih =>
    have hc : c ≠ '\n' := h c (by simp)
    have ih' := ih (fun x hx => h x (by simp [hx]))
    simp [splitNl, hc, ih']

theorem splitLines_append (a b : String) (h : ∀ c ∈ a.data, c ≠ '\n') :
    splitLines (a ++ "\n" ++ b) = a :: splitLines b := by
  unfold splitLines
  have e : (a ++ "\n" ++ b).data = a.data ++ '\n' :: b.data := by
    rw [String.data_append, String.data_append, List.append_assoc]
    rfl
  rw [e, splitNl_append _ _ h, List.map_cons, stringMk_data]

theorem splitLines_single (a : String) (h : ∀ c ∈ a.data, c ≠ '\n') :
    splitLines a = [a] := by
  unfold splitLines
  rw [splitNl_no_newline _ h, List.map_cons, List.map_nil, stringMk_data]

theorem noNl_append {a b : String} (ha : ∀ c ∈ a.data, c ≠ '\n')
    (hb : ∀ c ∈ b.data, c ≠ '\n') : ∀ c ∈ (a ++ b).data, c ≠ '\n' := by
  intro c hc
  rw [String.data_append] at hc
  rcases List.mem_append.mp hc with h | h
  exacts [ha c h, hb c h]

/-- A concrete survey record used to exhibit the missing q3 line. -/
def surveyExample : Survey :=
  { q1 := Json.str "dry"
    q2 := Json.str "acne"
    q3 := Json.str "zzz"
    q4 := ["nuts", "pet-dander"]
    q5 := Json.str "gel"
    q6 := Json.str "simple"
    q7 := Json.str "low"
    q8 := Json.str "glow" }

/-- Counterexample to claim C3 as stated: the claim asks for a line rendering
each scalar field including `q3`, whose title-cased value here is `"Zzz"`; the
rendered summary does not contain that rendering anywhere (so in particular no
line renders q3). -/
theorem c3_counterexample :
    pretty surveyExample.q3 = "Zzz"
    ∧ ¬ (("Zzz".data) <:+: (surveySummary surveyExample).data) := by
  exact ⟨rfl, by decide⟩

/-- Claim C3, amended: the summary consists of the header line and one line
for each of q1, q2, q5, q6, q7, q8 (title-cased with separators converted to
spaces) plus the q4 list line ("None" when empty) — but no line for q3, which
the source omits from the summary.  The hypotheses state that the rendered
field values contain no newline, so that the line decomposition is exact. -/
theorem c3_summary_lines (s : Survey)
    (h1 : ∀ c ∈ (pretty s.q1).data, c ≠ '\n')
    (h2 : ∀ c ∈ (pretty s.q2).data, c ≠ '\n')
    (h4 : ∀ c ∈ (renderList s.q4).data, c ≠ '\n')
    (h5 : ∀ c ∈ (pretty s.q5).data, c ≠ '\n')
    (h6 : ∀ c ∈ (pretty s.q6).data, c ≠ '\n')
    (h7 : ∀ c ∈ (pretty s.q7).data, c ≠ '\n')
    (h8 : ∀ c ∈ (pretty s.q8).data, c ≠ '\n') :
    splitLines (surveySummary s) =
      ["Survey saved:",
       "- Skin type: " ++ pretty s.q1,
       "- Primary concern: " ++ pretty s.q2,
       "- Allergies: " ++ renderList s.q4,
       "- Product preference: " ++ pretty s.q5,
       "- Routine: " ++ pretty s.q6,
       "- Sensitivity: " ++ pretty s.q7,
       "- Desired results: " ++ pretty s.q8] := by
  unfold surveySummary
  rw [splitLines_append _ _ (by decide),
    splitLines_append _ _ (noNl_append (by decide) h1),
    splitLines_append _ _ (noNl_append (by decide) h2),
    splitLines_append _ _ (noNl_append (by decide) h4),
    splitLines_append _ _ (noNl_append (by decide) h5),
    splitLines_append _ _ (noNl_append (by decide) h6),
    splitLines_append _ _ (noNl_append (by decide) h7),
    splitLines_single _ (noNl_append (by decide) h8)]

/-- Witness for the amended C3 at a concrete survey record. -/
theorem c3_summary_lines_witness :
    splitLines (surveySummary surveyExample) =
      ["Survey saved:",
       "- Skin type: Dry",
       "- Primary concern: Acne",
       "- Allergies: Nuts, Pet Dander",
       "- Product preference: Gel",
       "- Routine: Simple",
       "- Sensitivity: Low",
       "- Desired results: Glow"] :=
  c3_summary_lines surveyExample (by decide) (by decide) (by decide) (by decide)
    (by decide) (by decide) (by decide)

/-! ### Quiz-answer dispatch (`question.submit` branch of `onAction`) -/

/-- A message sent into the conversation via `sendUserMessage`
(`reply` is the originating widget message id). -/
structure SentMessage where
  text : String
  reply : Option String

/-- Outcome of the backend `fetch`: an HTTP response with a status, or a
network failure (rejected promise). -/
inductive FetchOutcome where
  | success : Nat → FetchOutcome
  | networkFailure : FetchOutcome

/-- `Response.ok`: status in the 2xx range. -/
def statusOk (status : Nat) : Bool :=
  decide (200 ≤ status) && decide (status < 300)

/-- Whether the fetch settled with `res.ok` (a network failure never does). -/
def fetchOk : FetchOutcome → Bool
  | FetchOutcome.success st => statusOk st
  | FetchOutcome.networkFailure => false

/-- The confirmation template
`` `Recorded your answer "${answer}" for quiz "${quizId}".` ``. -/
def confirmText (answer quizId : Json) : String :=
  "Recorded your answer \"" ++ jsToString answer ++ "\" for quiz \"" ++
    jsToString quizId ++ "\"."

/-- The fixed apology message of the quiz branch. -/
def apologyText : String :=
  "Sorry — couldn’t save your answer right now."

/-- Observable outcome of the `question.submit` branch: the conversation
messages sent and the `{ ok: true, quizId, answer }` action result. -/
structure QuizDispatch where
  sent : List SentMessage
  retOk : Bool
  retQuizId : Json
  retAnswer : Json

/-- Embedding of the `question.submit` branch: POST the answer; on `res.ok`
send the confirmation as a reply to the widget message, on any failure
(network error or thrown non-2xx) send the apology; always return
`{ ok: true, quizId, answer }`.  `hasSend` models whether the widget element
exposes `sendUserMessage`. -/
def questionSubmit (quizId answer : Json) (widgetMsgId : Option String)
    (backend : FetchOutcome) (hasSend : Bool) : QuizDispatch :=
  if fetchOk backend then
    { sent := if hasSend then [{ text := confirmText answer quizId, reply := widgetMsgId }] else []
      retOk := true
      retQuizId := quizId
      retAnswer := answer }
  else
    { sent := if hasSend then [{ text := apologyText, reply := widgetMsgId }] else []
      retOk := true
      retQuizId := quizId
      retAnswer := answer }

/-- Claim C4: the quiz dispatch reports success to the widget runtime
regardless of the backend outcome; with the send capability available it sends
exactly one message, the confirmation (containing both the answer and the quiz
identifier) on HTTP success and the fixed apology otherwise, as a reply to the
originating widget message. -/
theorem c4_quiz_dispatch_always_ok (quizId answer : Json) (wid : Option String)
    (backend : FetchOutcome) :
    ((questionSubmit quizId answer wid backend true).retOk = true)
    ∧ ((questionSubmit quizId answer wid backend false).retOk = true)
    ∧ ((questionSubmit quizId answer wid backend true).sent =
        [{ text := if fetchOk backend then confirmText answer quizId else apologyText
           reply := wid }])
    ∧ ((jsToString answer).data <:+: (confirmText answer quizId).data)
    ∧ ((jsToString quizId).data <:+: (confirmText answer quizId).data) := by
  refine ⟨?_, ?_, ?_, ?_, ?_⟩
  · unfold questionSubmit
    split <;> rfl
  · unfold questionSubmit
    split <;> rfl
  · unfold questionSubmit
    by_cases h : fetchOk backend = true
    · rw [if_pos h, if_pos h]
      rfl
    · rw [if_neg h, if_neg h]
      rfl
  · exact ⟨"Recorded your answer \"".data,
      ("\" for quiz \"" ++ jsToString quizId ++ "\".").data, by
        simp [confirmText, String.data_append, List.append_assoc]⟩
  · exact ⟨("Recorded your answer \"" ++ jsToString answer ++ "\" for quiz \"").data,
      "\".".data, by
        simp [confirmText, String.data_append, List.append_assoc]⟩

/-! ### The `record_fact` client tool and the Processed-Fact Set -/

/-- The whitespace class of the regex `\s` restricted to ASCII (the model's
scope; the component's tool inputs are ordinary text). -/
def isJsWhitespace (c : Char) : Bool :=
  c == ' ' || c == '\t' || c == '\n' || c == '\r' ||
  c == Char.ofNat 11 || c == Char.ofNat 12

/-- `.replace(/\s+/g, " ")`: each maximal whitespace run becomes one space.
The flag records whether the previous character was whitespace. -/
def collapseWs : Bool → List Char → List Char
  | _, [] => []
  | prevWs, c :: cs =>
    if isJsWhitespace c then
      (if prevWs then [] else [' ']) ++ collapseWs true cs
    else c :: collapseWs false cs

/-- `.trim()`: drop whitespace from both ends. -/
def jsTrim (l : List Char) : List Char :=
  ((l.dropWhile isJsWhitespace).reverse.dropWhile isJsWhitespace).reverse

/-- `text.replace(/\s+/g, " ").trim()`. -/
def normalizeWs (s : String) : String :=
  String.mk (jsTrim (collapseWs false s.data))

/-- The action handed to the fact-save callback (`{type: "save", factId,
factText}`; the constant tag is left implicit). -/
structure FactAction where
  factId : String
  factText : String

/-- Embedding of the `record_fact` branch of `onClientTool` over the
Processed-Fact Set: returns the new set, the callback invocation (if any) and
the reported success flag. -/
def recordFact (processed : List String) (factId factText : String) :
    List String × Option FactAction × Bool :=
  if factId == "" || processed.contains factId then
    (processed, none, true)
  else
    (factId :: processed, some { factId := factId, factText := normalizeWs factText }, true)

/-- The `onThreadChange` handler: clears the Processed-Fact Set. -/
def clearProcessedFacts (processed : List String) : List String := []

/-- Claim C5: a second `record_fact` with the same identifier is a successful
no-op (the callback fires exactly once), an empty identifier is a successful
no-op, after a thread change the same identifier fires the callback again, and
the callback receives the fact text whitespace-collapsed and trimmed. -/
theorem c5_record_fact_dedup (processed : List String) (fid ftext : String)
    (hne : fid ≠ "") (hmem : processed.contains fid = false) :
    (recordFact processed fid ftext =
      (fid :: processed, some { factId := fid, factText := normalizeWs ftext }, true))
    ∧ (recordFact (fid :: processed) fid ftext = (fid :: processed, none, true))
    ∧ (recordFact (clearProcessedFacts (fid :: processed)) fid ftext =
        ([fid], some { factId := fid, factText := normalizeWs ftext }, true))
    ∧ (∀ (st : List String) (t : String), recordFact st "" t = (st, none, true)) := by
  have hb : (fid == "") = false := by
    simp [hne]
  refine ⟨?_, ?_, ?_, ?_⟩
  · unfold recordFact
    rw [hb, hmem]
    rfl
  · simp [recordFact, List.contains_cons]
  · show recordFact [] fid ftext = _
    unfold recordFact
    rw [hb]
    rfl
  · intro st t
    rfl

/-- Witness for C5 at a concrete identifier and text. -/
theorem c5_record_fact_dedup_witness :
    recordFact [] "fact-1" " Hello\n  world " =
      (["fact-1"], some { factId := "fact-1", factText := "Hello world" }, true)
    ∧ recordFact ["fact-1"] "fact-1" " Hello\n  world " = (["fact-1"], none, true) := by
  have h := c5_record_fact_dedup [] "fact-1" " Hello\n  world " (by decide) (by decide)
  exact ⟨h.1, h.2.1⟩

/-! ### Error state and session-credential acquisition -/

/-- The four-slot error state of the panel. -/
structure ErrorState where
  script : Option String
  session : Option String
  integration : Option String
  retryable : Bool

/-- `createInitialErrors()`. -/
def createInitialErrors : ErrorState :=
  { script := none, session := none, integration := none, retryable := false }

/-- The fixed configuration-error message. -/
def workflowConfigMsg : String :=
  "Set NEXT_PUBLIC_CHATKIT_WORKFLOW_ID in your .env.local file."

/-- The fixed missing-credential message. -/
def missingSecretMsg : String :=
  "Missing client secret in response"

/-- `Boolean(WORKFLOW_ID && !WORKFLOW_ID.startsWith("wf_replace"))`. -/
def isWorkflowConfigured (workflowId : String) : Bool :=
  (workflowId != "") && !(("wf_replace".data).isPrefixOf workflowId.data)

/-- The settled state of the Session Endpoint fetch: `ok` is `Response.ok`,
`statusText` the raw status text, `body` the parsed response data (the source
reads the body as text and falls back to `{}` on empty or unparseable bodies,
so `body` is always a value). -/
structure SessionFetchResult where
  ok : Bool
  statusText : String
  body : Json

/-- Observable outcome of `getClientSecret`: the returned/thrown result, the
error state after the call, and whether the Session Endpoint was contacted. -/
structure SecretOutcome where
  result : Except String Json
  errors : ErrorState
  networkCalled : Bool

/-- Embedding of `getClientSecret`: the configuration precondition (fail
closed with no network call), the pre-call clearing of the session/integration
slots, failure-path extraction via `extractErrorDetail`, the falsy check on
`client_secret`, and the catch block that records any thrown message into the
session slot (non-retryable). -/
def getClientSecret (workflowId : String) (resp : SessionFetchResult)
    (st : ErrorState) : SecretOutcome :=
  if !(isWorkflowConfigured workflowId) then
    { result := Except.error workflowConfigMsg
      errors := { st with session := some workflowConfigMsg, retryable := false }
      networkCalled := false }
  else
    let cleared : ErrorState := { st with session := none, integration := none, retryable := false }
    if !resp.ok then
      let detail := extractErrorDetail (some resp.body) resp.statusText
      { result := Except.error detail
        errors := { cleared with session := some detail, retryable := false }
        networkCalled := true }
    else
      match resp.body.getField? "client_secret" with
      | some v =>
        if v.truthy then
          { result := Except.ok v
            errors := { cleared with session := none, integration := none }
            networkCalled := true }
        else
          { result := Except.error missingSecretMsg
            errors := { cleared with session := some missingSecretMsg, retryable := false }
            networkCalled := true }
      | none =>
        { result := Except.error missingSecretMsg
          errors := { cleared with session := some missingSecretMsg, retryable := false }
          networkCalled := true }

/-- A 2xx session response whose `client_secret` field holds the empty
string. -/
def emptySecretResp : SessionFetchResult :=
  { ok := true, statusText := "OK", body := Json.obj [("client_secret", Json.str "")] }

/-- Counterexample to claim C6 as stated: this success response contains the
credential field (holding `""`), yet credential acquisition fails with the
fixed missing-credential message instead of returning the contained value,
because the source checks the field for truthiness, not presence. -/
theorem c6_counterexample :
    emptySecretResp.ok = true
    ∧ emptySecretResp.body.getField? "client_secret" = some (Json.str "")
    ∧ (getClientSecret "wf_live_abc" emptySecretResp createInitialErrors).result =
        Except.error missingSecretMsg
    ∧ (getClientSecret "wf_live_abc" emptySecretResp createInitialErrors).errors.session =
        some missingSecretMsg :=
  ⟨rfl, rfl, rfl, rfl⟩

/-- Claim C6, amended: for a success response whose `client_secret` field holds
a truthy (non-empty-string) credential, acquisition returns that credential and
clears the session and integration slots; for a success response lacking the
field (or holding a falsy value, which the counterexample shows behaves the
same), acquisition fails with the fixed missing-credential message recorded in
the session slot. -/
theorem c6_credential_acquisition (wfId : String) (resp : SessionFetchResult)
    (st : ErrorState) (hcfg : isWorkflowConfigured wfId = true)
    (hok : resp.ok = true) :
    (∀ v : Json, resp.body.getField? "client_secret" = some v → v.truthy = true →
      getClientSecret wfId resp st =
        { result := Except.ok v
          errors := { st with session := none, integration := none, retryable := false }
          networkCalled := true })
    ∧ (resp.body.getField? "client_secret" = none →
      (getClientSecret wfId resp st).result = Except.error missingSecretMsg
      ∧ (getClientSecret wfId resp st).errors =
          { st with
            session := some missingSecretMsg
            integration := none
            retryable := false }) := by
  constructor
  · intro v hv hvt
    unfold getClientSecret
    rw [hcfg, hok, hv]
    simp [hvt]
  · intro hnone
    unfold getClientSecret
    rw [hcfg, hok, hnone]
    exact ⟨rfl, rfl⟩

/-- A 2xx session response with a non-empty credential. -/
def goodSecretResp : SessionFetchResult :=
  { ok := true, statusText := "OK", body := Json.obj [("client_secret", Json.str "ek_test_123")] }

/-- Witness for the amended C6 at a concrete configured workflow and
credential-bearing response. -/
theorem c6_credential_acquisition_witness :
    getClientSecret "wf_abc123" goodSecretResp createInitialErrors =
      { result := Except.ok (Json.str "ek_test_123")
        errors := { createInitialErrors with
          session := none, integration := none, retryable := false }
        networkCalled := true } :=
  (c6_credential_acquisition "wf_abc123" goodSecretResp createInitialErrors (by decide)
    rfl).1 (Json.str "ek_test_123") rfl (by decide)

/-- Claim C7: with the workflow identifier unset or left at its placeholder
default, credential acquisition fails immediately with the fixed
configuration-error message, records it in the session slot marked
non-retryable, and performs no network call. -/
theorem c7_unconfigured_workflow (wfId : String) (resp : SessionFetchResult)
    (st : ErrorState)
    (h : wfId = "" ∨ ("wf_replace".data).isPrefixOf wfId.data = true) :
    isWorkflowConfigured wfId = false
    ∧ getClientSecret wfId resp st =
      { result := Except.error workflowConfigMsg
        errors := { st with session := some workflowConfigMsg, retryable := false }
        networkCalled := false } := by
  have hf : isWorkflowConfigured wfId = false := by
    rcases h with h | h
    · subst h
      rfl
    · unfold isWorkflowConfigured
      rw [h]
      simp
  refine ⟨hf, ?_⟩
  unfold getClientSecret
  rw [hf]
  rfl

/-- Witness for C7 at the placeholder workflow identifier. -/
theorem c7_unconfigured_workflow_witness :
    getClientSecret "wf_replace_me" goodSecretResp createInitialErrors =
      { result := Except.error workflowConfigMsg
        errors := { createInitialErrors with
          session := some workflowConfigMsg, retryable := false }
        networkCalled := false } :=
  (c7_unconfigured_workflow "wf_replace_me" goodSecretResp createInitialErrors
    (Or.inr (by decide))).2

/-! ### The `retryable` flag across all error-state transitions -/

/-- Every operation of the panel that writes the error state, with its
message where one is carried: script load/error signals, the configuration
failure, the pre-fetch clear, credential success/failure, response start and
the manual restart. -/
inductive PanelEvent where
  | scriptLoaded : PanelEvent
  | scriptError : String → PanelEvent
  | configFailure : PanelEvent
  | preCredentialFetch : PanelEvent
  | credentialSuccess : PanelEvent
  | credentialFailure : String → PanelEvent
  | responseStart : PanelEvent
  | manualRestart : PanelEvent

/-- The `setErrorState`/`setErrors` update each event performs in the
source. -/
def applyEvent (s : ErrorState) : PanelEvent → ErrorState
  | PanelEvent.scriptLoaded => { s with script := none }
  | PanelEvent.scriptError d => { s with script := some ("Error: " ++ d), retryable := false }
  | PanelEvent.configFailure => { s with session := some workflowConfigMsg, retryable := false }
  | PanelEvent.preCredentialFetch => { s with session := none, integration := none, retryable := false }
  | PanelEvent.credentialSuccess => { s with session := none, integration := none }
  | PanelEvent.credentialFailure d => { s with session := some d, retryable := false }
  | PanelEvent.responseStart => { s with integration := none, retryable := false }
  | PanelEvent.manualRestart => createInitialErrors

/-- `errors.script ?? (errors.session ?? errors.integration)`. -/
def blockingError (e : ErrorState) : Option String :=
  match e.script with
  | some m => some m
  | none =>
    match e.session with
    | some m => some m
    | none => e.integration

/-- Whether the overlay's retry affordance is shown:
`blockingError && errors.retryable`. -/
def retryShown (e : ErrorState) : Bool :=
  (blockingError e).isSome && e.retryable

theorem applyEvent_retryable (s : ErrorState) (e : PanelEvent)
    (h : s.retryable = false) : (applyEvent s e).retryable = false := by
  cases e <;> simp [applyEvent, createInitialErrors, h]

theorem foldl_applyEvent_retryable (evs : List PanelEvent) (s : ErrorState)
    (h : s.retryable = false) : (evs.foldl applyEvent s).retryable = false := by
  induction evs generalizing s with
  | nil => exact h
  | cons e rest ih => exact ih _ (applyEvent_retryable s e h)

/-- Claim C8: in every state reachable from the initial error state by any
sequence of panel operations, `retryable` is false, so the overlay's retry
affordance is never shown. -/
theorem c8_retryable_never_true (evs : List PanelEvent) :
    ((evs.foldl applyEvent createInitialErrors).retryable = false)
    ∧ (retryShown (evs.foldl applyEvent createInitialErrors) = false) := by
  have h := foldl_applyEvent_retryable evs createInitialErrors rfl
  refine ⟨h, ?_⟩
  unfold retryShown
  rw [h, Bool.and_false]

/-! ### The quiz submission endpoint (`POST /api/quiz/submit`) -/

/-- The fixed 400 response body. -/
def missingFieldsJson : Json := Json.obj [("error", Json.str "Missing quizId or answer")]

/-- The success response body. -/
def okJson : Json := Json.obj [("ok", Json.bool true)]

/-- Embedding of the quiz route handler as status code and body.  A `none`
request body models a body that is not parseable as JSON (`req.json()`
rejects, the `.catch` substitutes `{}`).  A JSON `null` body makes the
destructuring throw, which the outer catch converts to a 500. -/
def quizSubmitPOST (reqBody : Option Json) : Nat × Json :=
  let data := reqBody.getD (Json.obj [])
  match data with
  | Json.null => (500, Json.obj [("error", Json.str "Internal error")])
  | d =>
    if !(d.getFieldD "quizId").truthy || !(d.getFieldD "answer").truthy then
      (400, missingFieldsJson)
    else
      (200, okJson)

theorem quizSubmitPOST_some (d : Json) (hne : d.isNull = false) :
    quizSubmitPOST (some d) =
      (if !(d.getFieldD "quizId").truthy || !(d.getFieldD "answer").truthy
       then (400, missingFieldsJson) else (200, okJson)) := by
  cases d
  case null => simp [Json.isNull] at hne
  case bool b => rfl
  case num n => rfl
  case str s => rfl
  case arr xs => rfl
  case obj fs => rfl

/-- Counterexample to claim C9 as stated: with both fields present but
`quizId` the empty string, the route answers 400 with the fixed message, not
`{ok: true}`. -/
theorem c9_counterexample :
    (Json.obj [("quizId", Json.str ""), ("answer", Json.str "B")]).getField? "quizId" =
      some (Json.str "")
    ∧ (Json.obj [("quizId", Json.str ""), ("answer", Json.str "B")]).getField? "answer" =
      some (Json.str "B")
    ∧ quizSubmitPOST (some (Json.obj [("quizId", Json.str ""), ("answer", Json.str "B")])) =
      (400, missingFieldsJson) :=
  ⟨rfl, rfl, rfl⟩

/-- Claim C9, amended: for a JSON body (other than the literal `null`), the
route answers the fixed 400 "Missing quizId or answer" unless both `quizId`
and `answer` are present and truthy, in which case it answers
`{ok: true}`. -/
theorem c9_quiz_route (data : Json) (h : data.isNull = false) :
    quizSubmitPOST (some data) =
      (if (data.getFieldD "quizId").truthy && (data.getFieldD "answer").truthy
       then (200, okJson) else (400, missingFieldsJson)) := by
  rw [quizSubmitPOST_some data h]
  cases hq : (data.getFieldD "quizId").truthy <;>
    cases ha : (data.getFieldD "answer").truthy <;> rfl

/-- Witness for the amended C9 at a well-formed submission. -/
theorem c9_quiz_route_witness :
    quizSubmitPOST (some (Json.obj [("quizId", Json.str "Q1"), ("answer", Json.str "B")])) =
      (200, okJson) :=
  (c9_quiz_route (Json.obj [("quizId", Json.str "Q1"), ("answer", Json.str "B")]) rfl).trans
    (by rfl)

/-- Claim C10: an unparseable body yields the same 400 "Missing quizId or
answer" response as an absent field (no parse exception escapes: the model's
route is total), and any body in which `quizId` or `answer` is falsy yields
that same 400 response. -/
theorem c10_quiz_route_falsy (data : Json) (hne : data.isNull = false)
    (hfalsy : (data.getFieldD "quizId").truthy = false
      ∨ (data.getFieldD "answer").truthy = false) :
    quizSubmitPOST none = (400, missingFieldsJson)
    ∧ quizSubmitPOST (some data) = (400, missingFieldsJson) := by
  refine ⟨rfl, ?_⟩
  rw [quizSubmitPOST_some data hne]
  rcases hfalsy with h | h <;> simp [h]

/-- Witness for C10 at a falsy (numeric zero) `quizId`. -/
theorem c10_quiz_route_falsy_witness :
    quizSubmitPOST none = (400, missingFieldsJson)
    ∧ quizSubmitPOST (some (Json.obj [("quizId", Json.num 0), ("answer", Json.str "B")])) =
      (400, missingFieldsJson) :=
  c10_quiz_route_falsy (Json.obj [("quizId", Json.num 0), ("answer", Json.str "B")]) rfl
    (Or.inl (by decide))
